import Mathlib

/-!
Shallow embedding of the Battleship web-service core
(`src/server/bs/runserver.py`, Python 3).

Python exceptions are modelled explicitly: an operation that can raise
returns `Except PyErr _`, and a method that mutates `self` before a raise
returns the partially-mutated state alongside the raised error, mirroring
the fact that Python object mutations performed before an exception persist.
Module-level constants are transcribed from the source literals; two
construction slips in the source are noted in the doc comments where they
occur (the missing comma inside the `SHIPS` literal, and the
`dict(lambda s: ..., SHIPS.items())` call used to build `SHIPS_INTCODES`,
which is missing a `map`).
-/

set_option autoImplicit false

deriving instance DecidableEq for Except

namespace BS

/-- Python runtime errors that the embedded code can raise. -/
inductive PyErr where
  | typeError
  | attributeError
  | keyError
  | nameError
  | indexError
deriving DecidableEq

/-- A Python value stored in the `moves_index` list.  The source appends
`self.moves_map[coords]` (the boolean `True`) where the surrounding code and
the spec expect the coordinate pair, so entries can be either shape. -/
inductive LogEntry where
  | coord (x y : Nat)
  | flag (b : Bool)
deriving DecidableEq

/-- One entry of the `SHIPS` catalog: `{"intcode": ..., "length": ...}`. -/
structure ShipDef where
  intcode : Nat
  length : Nat
deriving DecidableEq

/-- The `SHIPS` module constant, transcribed entry by entry from the source
literal (the source literal is missing the comma after the carrier entry,
a syntax slip; the five entries themselves are as written). -/
def SHIPS : List (String × ShipDef) :=
  [("carrier", ⟨1, 5⟩),
   ("battleship", ⟨2, 4⟩),
   ("cruiser", ⟨3, 3⟩),
   ("submarine", ⟨4, 3⟩),
   ("destroyer", ⟨5, 2⟩)]

/-- `SHIPS_INTCODES`: the inverse mapping `intcode -> ship id` denoted by the
source's `lambda s: (s[1]["intcode"], s[0])` over `SHIPS.items()` (the source
wraps this in `dict(lambda, items)` without the needed `map`, which would
itself raise `TypeError` at import time; the mapping the lambda denotes is
embedded). -/
def SHIPS_INTCODES : List (Nat × String) :=
  SHIPS.map (fun s => (s.2.intcode, s.1))

def GRID_SIZE : Nat := 10
def MOVE_HIT : Nat := 1
def MOVE_MISS : Nat := 2

/-- Python `dict` lookup `d[k]` as an association-list lookup (first match). -/
def dictGet {α : Type} {β : Type} [DecidableEq α] (d : List (α × β)) (k : α) : Option β :=
  match d with
  | [] => none
  | e :: rest => if e.1 = k then some e.2 else dictGet rest k

/-- Python `dict` assignment `d[k] = v`: replaces the value at an existing
key in place, else appends the new pair (insertion order preserved). -/
def dictSet {α : Type} {β : Type} [DecidableEq α] (d : List (α × β)) (k : α) (v : β) :
    List (α × β) :=
  match d with
  | [] => [(k, v)]
  | e :: rest => if e.1 = k then (k, v) :: rest else e :: dictSet rest k v

/-- Reading `g[y][x]` from a 2-d grid; out-of-range indexing raises
`IndexError` as in numpy. -/
def grid2Get (g : List (List Nat)) (x y : Nat) : Except PyErr Nat :=
  if y < g.length then
    let row := g.getD y []
    if x < row.length then .ok (row.getD x 0) else .error .indexError
  else .error .indexError

/-- Writing `g[y][x] = v`; out-of-range indexing raises `IndexError`. -/
def grid2Set (g : List (List Nat)) (x y v : Nat) : Except PyErr (List (List Nat)) :=
  if y < g.length then
    let row := g.getD y []
    if x < row.length then .ok (g.set y (row.set x v)) else .error .indexError
  else .error .indexError

/-- `ShipModel`: id, length, intcode, hits, sunk. -/
structure ShipModel where
  id : String
  length : Nat
  intcode : Nat
  hits : Nat
  sunk : Bool
deriving DecidableEq

/-- `ShipModel.__init__`: hits start at 0, sunk starts `False`. -/
def ShipModel.init (id_ : String) (length intcode : Nat) : ShipModel :=
  ⟨id_, length, intcode, 0, false⟩

/-- `ShipModel.add_hit`: increments `hits` when below `length`, then sets
`sunk` when `hits >= length`.  (The source also returns `True`, carrying no
information.) -/
def ShipModel.add_hit (s : ShipModel) : ShipModel :=
  let s1 := if s.hits < s.length then { s with hits := s.hits + 1 } else s
  if s1.length ≤ s1.hits then { s1 with sunk := true } else s1

/-- The dictionary returned by `ShipModel.export`. -/
structure ShipExport where
  hits : Nat
  sunk : Bool
  length : Nat
  intcode : Nat
deriving DecidableEq

def ShipModel.export (s : ShipModel) : ShipExport :=
  ⟨s.hits, s.sunk, s.length, s.intcode⟩

/-- `ShipModel.get_ship_id_by_intcode`: `SHIPS_INTCODES[intcode]`, raising
`KeyError` on a missing key. -/
def get_ship_id_by_intcode (intcode : Nat) : Except PyErr String :=
  match dictGet SHIPS_INTCODES intcode with
  | none => .error .keyError
  | some ship_id => .ok ship_id

/-- `ShipModel.make_ship_by_id`: `SHIPS[ship_id]` (raising `KeyError` on an
unknown id) then the constructor. -/
def make_ship_by_id (ship_id : String) : Except PyErr ShipModel :=
  match dictGet SHIPS ship_id with
  | none => .error .keyError
  | some ship_def => .ok (ShipModel.init ship_id ship_def.length ship_def.intcode)

/-- The dictionary returned when a hit attempt is adjudicated:
`{"hit": ..., "sunk": ..., "sunk_all": ...}`. -/
structure MoveData where
  hit : Bool
  sunk : Option Bool
  sunk_all : Bool
deriving DecidableEq

/-- The tri-state outcome `(status, data, message)` used by
`register_hit` / `make_move`. -/
abbrev MoveOutcome : Type := Bool × Option MoveData × Option String

/-- `PlayerModel` state: identifiers, move bookkeeping, the ship mapping,
the `GRID_SIZE x GRID_SIZE` placement grid `grid`, the attack-result grid
`grid_attempts`, and the `sunk_all` flag. -/
structure PlayerModel where
  id : String
  session_id : String
  moves_map : List ((Nat × Nat) × Bool)
  moves_index : List LogEntry
  ships : List (String × ShipModel)
  grid : List (List Nat)
  grid_attempts : List (List Nat)
  sunk_all : Bool
deriving DecidableEq

/-- The dictionary returned by `PlayerModel.export`.  Field names are the
keys of the source dict; note that the source binds the key
`"grid_attempts"` to `self.grid.tolist()` (the ship-placement grid). -/
structure BoardExport where
  id : String
  moves_index : List LogEntry
  sunk_all : Bool
  grid_attempts : List (List Nat)
  grid : Option (List (List Nat))
  ships : Option (List ShipExport)
deriving DecidableEq

/-- `PlayerModel.export(this_player_id)`.  Two source facts are embedded
faithfully: the `"grid_attempts"` key is bound to `self.grid.tolist()` — the
ship-placement grid, not the `grid_attempts` attribute — for every viewer;
and for the owner the `"ships"` value is `list(map(lambda s: s.export(),
self.ships))`, which iterates the dict's keys (strings), so it raises
`AttributeError` as soon as at least one ship is placed. -/
def PlayerModel.export (p : PlayerModel) (this_player_id : Option String) :
    Except PyErr BoardExport :=
  let is_this_player : Bool := this_player_id == some p.id
  if is_this_player && !p.ships.isEmpty then .error .attributeError
  else
    .ok { id := p.id
          moves_index := p.moves_index
          sunk_all := p.sunk_all
          grid_attempts := p.grid
          grid := if is_this_player then some p.grid else none
          ships := if is_this_player then some [] else none }

/-- `PlayerModel.has_ship`. -/
def PlayerModel.has_ship (p : PlayerModel) (ship_id : String) : Bool :=
  (dictGet p.ships ship_id).isSome

/-- `PlayerModel.check_all_ships_added`: `len(self.ships) == len(SHIPS)`. -/
def PlayerModel.check_all_ships_added (p : PlayerModel) : Bool :=
  p.ships.length == SHIPS.length

/-- `PlayerModel.is_space_available`: the source computes
`len(filter(lambda k: k > 0, ship_arr))`; in Python 3 `filter` returns an
iterator with no `len()`, so the call raises `TypeError` unconditionally. -/
def PlayerModel.is_space_available (_p : PlayerModel) (_ship_arr : Option (List Nat)) :
    Except PyErr Bool :=
  .error .typeError

/-- `PlayerModel.get_ship_arr`: the cells addressed by an origin and an
orientation, via Python slicing, which CLIPS at the grid edge rather than
failing (an off-grid footprint silently yields fewer than `ship_len`
cells).  Orientation `"x"` slices row `y` (raising `IndexError` when `y` is
out of range, as `self.grid[y]` does); orientation `"y"` takes rows
`y..y+ship_len` (clipped) and indexes column `x` in each; any other
orientation returns `None`. -/
def PlayerModel.get_ship_arr (p : PlayerModel) (ship_len : Nat) (coords : Nat × Nat)
    (orient : String) : Except PyErr (Option (List Nat)) :=
  let x := coords.1
  let y := coords.2
  if orient = "x" then
    if y < p.grid.length then
      .ok (some (((p.grid.getD y []).drop x).take ship_len))
    else .error .indexError
  else if orient = "y" then
    match ((p.grid.drop y).take ship_len).mapM
        (fun row => if x < row.length then Except.ok (row.getD x 0)
                    else Except.error PyErr.indexError) with
    | .error e => .error e
    | .ok vals => .ok (some vals)
  else .ok none

/-- `PlayerModel.add_ship`: duplicate kinds are rejected with `False`
before anything else; otherwise the ship is built, the footprint slice is
taken, and `is_space_available` is consulted — which raises `TypeError`
(see its doc).  Were that call ever to answer `True`, the source would next
call `self.add_ship_coords_to_grid(...)`, a method that does not exist
(the class defines `add_ship_coord_to_grid`), raising `AttributeError`;
that unreachable branch is embedded as that error. -/
def PlayerModel.add_ship (p : PlayerModel) (ship_id : String) (coords : Nat × Nat)
    (orient : String) : PlayerModel × Except PyErr Bool :=
  if p.has_ship ship_id then (p, .ok false)
  else
    match make_ship_by_id ship_id with
    | .error e => (p, .error e)
    | .ok ship =>
      match p.get_ship_arr ship.length coords orient with
      | .error e => (p, .error e)
      | .ok ship_arr =>
        match p.is_space_available ship_arr with
        | .error e => (p, .error e)
        | .ok available =>
          if !available then (p, .ok false)
          else (p, .error .attributeError)

/-- `PlayerModel.get_ship_at_coords`: reads `self.grid[y][x]`; 0 means no
ship; otherwise resolves the marker through `SHIPS_INTCODES` and looks the
ship up in `self.ships` (each lookup raising `KeyError` on a miss).  The
dict key is returned alongside the ship to model that the source returns a
reference to the shared `ShipModel` object stored under that key. -/
def PlayerModel.get_ship_at_coords (p : PlayerModel) (coords : Nat × Nat) :
    Except PyErr (Option (String × ShipModel)) :=
  match grid2Get p.grid coords.1 coords.2 with
  | .error e => .error e
  | .ok intcode =>
    if intcode == 0 then .ok none
    else
      match get_ship_id_by_intcode intcode with
      | .error e => .error e
      | .ok ship_id =>
        match dictGet p.ships ship_id with
        | none => .error .keyError
        | some ship => .ok (some (ship_id, ship))

/-- `PlayerModel.add_grid_attempt`: writes `MOVE_HIT` or `MOVE_MISS` into
`self.grid_attempts[y][x]`. -/
def PlayerModel.add_grid_attempt (p : PlayerModel) (is_hit : Bool) (coords : Nat × Nat) :
    Except PyErr PlayerModel :=
  let code := if is_hit then MOVE_HIT else MOVE_MISS
  match grid2Set p.grid_attempts coords.1 coords.2 code with
  | .error e => .error e
  | .ok ga => .ok { p with grid_attempts := ga }

/-- `PlayerModel.is_sunk_all`: the source filters `self.ships` — the dict
itself, hence its KEYS (strings) — with `lambda s: not s.sunk`.  On an
empty dict the lambda is never called and the result is `True`; on a
non-empty dict the first key, a `str`, has no `.sunk` attribute and the
call raises `AttributeError`. -/
def PlayerModel.is_sunk_all (p : PlayerModel) : Except PyErr Bool :=
  if p.ships.isEmpty then .ok true else .error .attributeError

/-- `PlayerModel.register_hit(coords)`: precondition rejections first (all
five ships placed; not already fully sunk), then adjudication.  State
mutated before a raise is retained in the returned state, as in Python.
The source appends `self.moves_map[coords]` — the value `True`, not the
coordinate — to `moves_index`. -/
def PlayerModel.register_hit (p : PlayerModel) (coords : Nat × Nat) :
    PlayerModel × Except PyErr MoveOutcome :=
  if !p.check_all_ships_added then (p, .ok (false, none, some "not_all_ships_added"))
  else if p.sunk_all then (p, .ok (false, none, some "all_ships_already_sunk"))
  else
    match p.get_ship_at_coords coords with
    | .error e => (p, .error e)
    | .ok shipOpt =>
      let is_hit := shipOpt.isSome
      match p.add_grid_attempt is_hit coords with
      | .error e => (p, .error e)
      | .ok p1 =>
        let p2 := { p1 with
                    moves_map := dictSet p1.moves_map coords true,
                    moves_index := p1.moves_index ++ [LogEntry.flag true] }
        match shipOpt with
        | none => (p2, .ok (true, some ⟨false, none, false⟩, none))
        | some (ship_id, ship) =>
          let ship' := ship.add_hit
          let p3 := { p2 with ships := dictSet p2.ships ship_id ship' }
          match p3.is_sunk_all with
          | .error e => (p3, .error e)
          | .ok su =>
            let p4 := if su then { p3 with sunk_all := true } else p3
            (p4, .ok (true, some ⟨true, some ship'.sunk, p4.sunk_all⟩, none))

/-- `GameModel` state.  The source's `__init__` assigns `game_status = True`
and `win_player = None` to LOCAL variables (missing `self.`), so a freshly
constructed game keeps the class-level defaults: both attributes are
`None`; the fields are therefore `Option`-typed with `none` initial
values. -/
structure GameModel where
  id : String
  players : List (String × PlayerModel)
  game_status : Option Bool
  win_player : Option String
deriving DecidableEq

/-- `GameModel.__init__` (with a fixed identifier in place of `uuid4`). -/
def GameModel.init (id_ : String) : GameModel :=
  ⟨id_, [], none, none⟩

/-- `GameModel.has_player`. -/
def GameModel.has_player (g : GameModel) (player_id : String) : Bool :=
  (dictGet g.players player_id).isSome

/-- `GameModel.get_player`: `self.players[player_id]` — a bare dict
subscript, which raises `KeyError` for an unknown identifier. -/
def GameModel.get_player (g : GameModel) (player_id : String) :
    Except PyErr PlayerModel :=
  match dictGet g.players player_id with
  | none => .error .keyError
  | some p => .ok p

/-- `GameModel.get_player_by_session_id`: filters the player VALUES by
session id (a comparison with `None` is simply `False`), returns `None`
when the filtered list is empty and its first element otherwise. -/
def GameModel.get_player_by_session_id (g : GameModel) (session_id : Option String) :
    Option PlayerModel :=
  let players := (g.players.map Prod.snd).filter
    (fun p => some p.session_id == session_id)
  if players.length == 0 then none else players.head?

/-- `GameModel.get_opposing_player`: the first statement of the source body
is `other_players ( list(...) )` — a CALL of the unbound name
`other_players` (the assignment `=` is missing) — so the method raises
`NameError` before doing anything else.  Had the assignment been intended,
the final `return other_players[0][0]` would return the opposing player's
identifier string, not the player object; hence the `Option String` result
type for the unreachable success shape. -/
def GameModel.get_opposing_player (_g : GameModel) (_this_player : PlayerModel) :
    Except PyErr (Option String) :=
  .error .nameError

/-- `GameModel.make_move`: resolves the opponent (which raises `NameError`,
see `get_opposing_player`) and would then call `register_hit` on the value
it got back — an identifier string, which has no such attribute, raising
`AttributeError`.  (Further slips sit beyond: the failure branch returns
the unbound name `msg`, and the win branch calls `self.register_winner(player)`
with `player` unbound and `register_winner` lacking a `self` parameter.) -/
def GameModel.make_move (g : GameModel) (this_player : PlayerModel) (coords : Nat × Nat) :
    GameModel × Except PyErr MoveOutcome :=
  match g.get_opposing_player this_player with
  | .error e => (g, .error e)
  | .ok none => (g, .ok (false, none, some "no_opposing_player"))
  | .ok (some _oppose_id) =>
    let _ := coords
    (g, .error .attributeError)

/-! ### Concrete states used to evaluate the code on specific inputs -/

/-- An all-zero `GRID_SIZE x GRID_SIZE` grid, as built by `np.zeros`. -/
def emptyGrid : List (List Nat) :=
  List.replicate GRID_SIZE (List.replicate GRID_SIZE 0)

/-- A freshly constructed `PlayerModel` (fixed identifiers in place of the
`uuid4` calls). -/
def freshPlayer : PlayerModel :=
  ⟨"player-1", "session-1", [], [], [], emptyGrid, emptyGrid, false⟩

/-- Placement grid holding only the carrier, markers `1` at row 0,
columns 0–4. -/
def gridOneShip : List (List Nat) :=
  [1, 1, 1, 1, 1, 0, 0, 0, 0, 0] :: List.replicate 9 (List.replicate 10 0)

/-- A board with just the carrier placed (grid cells painted and the ship
mapping holding the corresponding fresh `ShipModel`). -/
def pOneShip : PlayerModel :=
  { freshPlayer with
    grid := gridOneShip
    ships := [("carrier", ShipModel.init "carrier" 5 1)] }

/-- Placement grid with all five catalog ships on disjoint rows:
carrier row 0, battleship row 1, cruiser row 2, submarine row 3,
destroyer row 4. -/
def gridFull : List (List Nat) :=
  [[1, 1, 1, 1, 1, 0, 0, 0, 0, 0],
   [2, 2, 2, 2, 0, 0, 0, 0, 0, 0],
   [3, 3, 3, 0, 0, 0, 0, 0, 0, 0],
   [4, 4, 4, 0, 0, 0, 0, 0, 0, 0],
   [5, 5, 0, 0, 0, 0, 0, 0, 0, 0],
   [0, 0, 0, 0, 0, 0, 0, 0, 0, 0],
   [0, 0, 0, 0, 0, 0, 0, 0, 0, 0],
   [0, 0, 0, 0, 0, 0, 0, 0, 0, 0],
   [0, 0, 0, 0, 0, 0, 0, 0, 0, 0],
   [0, 0, 0, 0, 0, 0, 0, 0, 0, 0]]

/-- A board with all five catalog ships placed and no hits yet. -/
def pFull : PlayerModel :=
  { freshPlayer with
    grid := gridFull
    ships := [("carrier", ShipModel.init "carrier" 5 1),
              ("battleship", ShipModel.init "battleship" 4 2),
              ("cruiser", ShipModel.init "cruiser" 3 3),
              ("submarine", ShipModel.init "submarine" 3 4),
              ("destroyer", ShipModel.init "destroyer" 2 5)] }

/-- `pFull` with the `sunk_all` flag already raised. -/
def pFullSunk : PlayerModel :=
  { pFull with sunk_all := true }

/-- A game with a single joined player. -/
def gOnePlayer : GameModel :=
  ⟨"game-1", [("player-1", freshPlayer)], none, none⟩

/-- A game with two joined players. -/
def gTwoPlayers : GameModel :=
  ⟨"game-2", [("player-1", freshPlayer),
              ("player-2", { freshPlayer with id := "player-2", session_id := "session-2" })],
   none, none⟩

/-! ### Helper lemmas about `ShipModel.add_hit` -/

/-- The invariant maintained by `add_hit` from the constructor onward. -/
def ShipInv (s : ShipModel) : Prop :=
  s.hits ≤ s.length ∧ (s.sunk = true → s.length ≤ s.hits)

lemma shipInv_init (id_ : String) (len code : Nat) : ShipInv (ShipModel.init id_ len code) := by
  constructor
  · exact Nat.zero_le _
  · intro h
    simp [ShipModel.init] at h

lemma add_hit_length (s : ShipModel) : (ShipModel.add_hit s).length = s.length := by
  unfold ShipModel.add_hit
  by_cases h : s.hits < s.length <;> simp [h] <;> split <;> rfl

lemma add_hit_hits_mono (s : ShipModel) : s.hits ≤ (ShipModel.add_hit s).hits := by
  unfold ShipModel.add_hit
  by_cases h : s.hits < s.length <;> simp [h] <;> split <;> simp

lemma add_hit_hits_of_lt (s : ShipModel) (h : s.hits < s.length) :
    (ShipModel.add_hit s).hits = s.hits + 1 := by
  unfold ShipModel.add_hit
  simp [h]
  split <;> rfl

lemma add_hit_hits_le (s : ShipModel) (hinv : ShipInv s) :
    (ShipModel.add_hit s).hits ≤ s.length := by
  by_cases h : s.hits < s.length
  · rw [add_hit_hits_of_lt s h]
    exact h
  · unfold ShipModel.add_hit
    simp [h]
    split <;> exact hinv.1

lemma add_hit_sunk_eq (s : ShipModel) (hinv : ShipInv s) :
    (ShipModel.add_hit s).sunk = decide ((ShipModel.add_hit s).hits = s.length) := by
  by_cases h : s.hits < s.length
  · unfold ShipModel.add_hit
    simp [h]
    by_cases h2 : s.length ≤ s.hits + 1
    · have : s.hits + 1 = s.length := Nat.le_antisymm h h2
      simp [h2, this]
    · have hne : ¬(s.hits + 1 = s.length) := by
        intro he
        exact h2 (Nat.le_of_eq he.symm)
      have hsf : s.sunk = false := by
        cases hs : s.sunk
        · rfl
        · exact absurd (Nat.lt_of_lt_of_le h (hinv.2 hs)) (Nat.lt_irrefl _)
      simp [h2, hne, hsf]
  · have heq : s.hits = s.length := Nat.le_antisymm hinv.1 (Nat.le_of_not_lt h)
    unfold ShipModel.add_hit
    simp [h, Nat.le_of_eq heq.symm, heq]

lemma shipInv_add_hit (s : ShipModel) (hinv : ShipInv s) : ShipInv (ShipModel.add_hit s) := by
  constructor
  · rw [add_hit_length]
    exact add_hit_hits_le s hinv
  · rw [add_hit_length, add_hit_sunk_eq s hinv]
    intro h
    exact Nat.le_of_eq (of_decide_eq_true h).symm

lemma add_hit_of_sunk (s : ShipModel) (hinv : ShipInv s) (hs : s.sunk = true) :
    ShipModel.add_hit s = s := by
  have heq : s.length ≤ s.hits := hinv.2 hs
  have hnlt : ¬ s.hits < s.length := Nat.not_lt.mpr heq
  unfold ShipModel.add_hit
  simp [hnlt, heq]
  cases s
  simp_all

lemma shipInv_iter (s : ShipModel) (n : Nat) (hinv : ShipInv s) :
    ShipInv (ShipModel.add_hit^[n] s) := by
  induction n with
  | zero => simpa using hinv
  | succ i ih =>
    rw [Function.iterate_succ_apply']
    exact shipInv_add_hit _ ih

lemma iter_add_hit_length (s : ShipModel) (n : Nat) :
    (ShipModel.add_hit^[n] s).length = s.length := by
  induction n with
  | zero => rfl
  | succ i ih =>
    rw [Function.iterate_succ_apply', add_hit_length, ih]

lemma iter_add_hit_hits (s : ShipModel) (n : Nat) (h : s.hits + n ≤ s.length) :
    (ShipModel.add_hit^[n] s).hits = s.hits + n := by
  induction n generalizing s with
  | zero => rfl
  | succ i ih =>
    have hlt : s.hits < s.length := by omega
    rw [Function.iterate_succ_apply]
    have h1 := add_hit_hits_of_lt s hlt
    have h2 := add_hit_length s
    have := ih (ShipModel.add_hit s) (by omega)
    omega

lemma add_hit_sunk_of_last (s : ShipModel) (h : s.hits + 1 = s.length) :
    (ShipModel.add_hit s).sunk = true := by
  have hlt : s.hits < s.length := by omega
  unfold ShipModel.add_hit
  simp [hlt, Nat.le_of_eq h.symm]

/-! ### Helper lemmas about dictionaries, grids and attack iteration -/

lemma dictGet_dictSet_self {α β : Type} [DecidableEq α] (d : List (α × β)) (k : α) (v : β) :
    dictGet (dictSet d k v) k = some v := by
  induction d with
  | nil => simp [dictGet, dictSet]
  | cons e rest ih =>
    by_cases h : e.1 = k
    · simp [dictGet, dictSet, h]
    · simp [dictGet, dictSet, h, ih]

lemma length_dictSet_present {α β : Type} [DecidableEq α] (d : List (α × β)) (k : α)
    (v w : β) (h : dictGet d k = some w) : (dictSet d k v).length = d.length := by
  induction d with
  | nil => simp [dictGet] at h
  | cons e rest ih =>
    by_cases he : e.1 = k
    · simp [dictSet, he]
    · simp [dictGet, he] at h
      simp [dictSet, he, ih h]

lemma isEmpty_dictSet {α β : Type} [DecidableEq α] (d : List (α × β)) (k : α) (v : β) :
    (dictSet d k v).isEmpty = false := by
  cases d with
  | nil => rfl
  | cons e rest => by_cases h : e.1 = k <;> simp [dictSet, h]

lemma getD_set_self {α : Type} (l : List α) (i : Nat) (a d : α) (h : i < l.length) :
    (l.set i a).getD i d = a := by
  induction l generalizing i with
  | nil => simp at h
  | cons x xs ih =>
    cases i with
    | zero => rfl
    | succ j =>
      simp at h
      simpa [List.set, List.getD] using ih j (by omega)

lemma getD_eq_getElem_of_lt {α : Type} (l : List α) (i : Nat) (d : α) (h : i < l.length) :
    l.getD i d = l[i] := by
  induction l generalizing i with
  | nil => simp at h
  | cons a as ih =>
    cases i with
    | zero => rfl
    | succ j => simpa [List.getD] using ih j (by simpa using h)

lemma grid2Set_ok (g : List (List Nat)) (x y v : Nat) (hy : y < g.length)
    (hx : x < (g.getD y []).length) :
    grid2Set g x y v = .ok (g.set y ((g.getD y []).set x v)) := by
  unfold grid2Set
  rw [if_pos hy]
  dsimp only
  rw [if_pos hx]

/-- One attack at fixed coordinates, keeping only the state (the Python
object survives the `AttributeError` the call ends in). -/
def attackStep (coords : Nat × Nat) (p : PlayerModel) : PlayerModel :=
  (PlayerModel.register_hit p coords).1

/-- Everything `register_hit` needs to reach (and record) a ship hit at
`(x, y)`: all five ships placed, not already flagged sunk, the grid cell
holding the non-zero marker `m` of the catalog kind `k`, which is placed
as `ship`, and the attack grid addressable at `(x, y)`. -/
def AttackReady (p : PlayerModel) (x y m : Nat) (k : String) (ship : ShipModel) : Prop :=
  p.check_all_ships_added = true ∧
  p.sunk_all = false ∧
  grid2Get p.grid x y = .ok m ∧
  (m == 0) = false ∧
  dictGet SHIPS_INTCODES m = some k ∧
  dictGet p.ships k = some ship ∧
  y < p.grid_attempts.length ∧
  x < (p.grid_attempts.getD y []).length

lemma attackStep_eq (p : PlayerModel) (x y m : Nat) (k : String) (ship : ShipModel)
    (h : AttackReady p x y m k ship) :
    attackStep (x, y) p = { p with
      grid_attempts := p.grid_attempts.set y ((p.grid_attempts.getD y []).set x MOVE_HIT),
      moves_map := dictSet p.moves_map (x, y) true,
      moves_index := p.moves_index ++ [LogEntry.flag true],
      ships := dictSet p.ships k ship.add_hit } := by
  obtain ⟨h1, h2, h3, h4, h5, h6, h7, h8⟩ := h
  have hset := grid2Set_ok p.grid_attempts x y MOVE_HIT h7 h8
  unfold attackStep PlayerModel.register_hit
  simp [h1, h2, PlayerModel.get_ship_at_coords, h3, h4, get_ship_id_by_intcode, h5, h6,
    PlayerModel.add_grid_attempt, hset,
    PlayerModel.is_sunk_all, isEmpty_dictSet]

lemma attackReady_step (p : PlayerModel) (x y m : Nat) (k : String) (ship : ShipModel)
    (h : AttackReady p x y m k ship) :
    AttackReady (attackStep (x, y) p) x y m k ship.add_hit := by
  have he := attackStep_eq p x y m k ship h
  obtain ⟨h1, h2, h3, h4, h5, h6, h7, h8⟩ := h
  rw [he]
  refine ⟨?_, h2, h3, h4, h5, ?_, ?_, ?_⟩
  · simpa [PlayerModel.check_all_ships_added, length_dictSet_present _ k _ _ h6] using h1
  · exact dictGet_dictSet_self p.ships k ship.add_hit
  · rw [List.length_set]
    exact h7
  · rw [getD_set_self _ y _ [] h7, List.length_set]
    exact h8

lemma attackReady_iter (p : PlayerModel) (x y m : Nat) (k : String) (ship : ShipModel)
    (n : Nat) (h : AttackReady p x y m k ship) :
    AttackReady ((attackStep (x, y))^[n] p) x y m k (ShipModel.add_hit^[n] ship) := by
  induction n with
  | zero => simpa using h
  | succ i ih =>
    rw [Function.iterate_succ_apply', Function.iterate_succ_apply']
    exact attackReady_step _ _ _ _ _ _ ih

/-! ### Claim theorems -/

/-- C1: the claim states that `add_ship` returns a rejection value — never
an exception — and leaves state unchanged for duplicate-kind, off-grid and
occupied-cell requests.  Refuted for the off-grid and occupied legs: on a
fresh board a carrier at origin (6,0) horizontal (footprint off-grid) makes
`add_ship` raise `TypeError` (from `len(filter(...))` in
`is_space_available`), and with the carrier already occupying (0,0) a
destroyer aimed at (0,0) raises the same `TypeError` instead of returning a
rejection.  Only the duplicate-kind leg behaves as claimed (third
conjunct).  State is left unchanged in all three cases only because the
exception fires before any write. -/
theorem C1_add_ship_raises_instead_of_rejecting :
    PlayerModel.add_ship freshPlayer "carrier" (6, 0) "x" = (freshPlayer, .error .typeError)
    ∧ PlayerModel.add_ship pOneShip "destroyer" (0, 0) "x" = (pOneShip, .error .typeError)
    ∧ PlayerModel.add_ship pOneShip "carrier" (0, 9) "x" = (pOneShip, .ok false) := by
  decide

/-- C2: the claim states that on a fully placed, not-fully-sunk board,
attacking a ship-occupied cell returns success with
`{hit: true, sunk: _, sunk_all: _}`.  Refuted: on `pFull` (all five ships
placed, nothing sunk) attacking (0,0) — a carrier cell — raises
`AttributeError`, because `is_sunk_all` filters `self.ships` (the dict's
string keys) with `lambda s: not s.sunk`.  The empty-cell leg of the claim
does hold: attacking (5,0) returns `(True, {hit: False, sunk: None,
sunk_all: False}, None)` and leaves every ship unchanged. -/
theorem C2_register_hit_hit_branch_raises :
    (PlayerModel.register_hit pFull (0, 0)).2 = .error .attributeError
    ∧ (PlayerModel.register_hit pFull (5, 0)).2 = .ok (true, some ⟨false, none, false⟩, none)
    ∧ ((PlayerModel.register_hit pFull (5, 0)).1).ships = pFull.ships := by
  decide

/-- C4: the claim states that ship layout is revealed only to the owner
while the attack-result grid is exported to every viewer.  Refuted: the
export binds the key `"grid_attempts"` to `self.grid.tolist()` — the
ship-placement grid — for EVERY viewer.  Concretely, a non-owner's export
of `pOneShip` (carrier at row 0) succeeds and carries `gridOneShip` (which
shows the carrier's markers, e.g. cell (0,0) = 1) under `grid_attempts`,
while the board's actual attack grid is all-zero and never exported. -/
theorem C4_export_leaks_placement_grid :
    PlayerModel.export pOneShip (some "other-player") =
      .ok { id := "player-1", moves_index := [], sunk_all := false,
            grid_attempts := gridOneShip, grid := none, ships := none }
    ∧ pOneShip.grid_attempts = emptyGrid
    ∧ (gridOneShip.getD 0 []).getD 0 0 = 1
    ∧ gridOneShip ≠ emptyGrid := by
  decide

/-- C5: the claim states that `make_move` delegates to the opponent's
`register_hit`, propagates rejections, records the winner, and rejects
with a no-opponent outcome when fewer than two players joined.  Refuted:
`get_opposing_player` raises `NameError` on its first statement (the
binding of `other_players` is written as a call), so `make_move` raises
for a two-player game and also raises — instead of returning the
`no_opposing_player` rejection — for a one-player game. -/
theorem C5_make_move_raises_nameerror :
    GameModel.make_move gTwoPlayers freshPlayer (0, 0) = (gTwoPlayers, .error .nameError)
    ∧ GameModel.make_move gOnePlayer freshPlayer (0, 0) = (gOnePlayer, .error .nameError) := by
  decide

/-- C6: the claim describes the effects of every successful `add_ship`
call.  Refuted: no call can succeed — even a perfectly legal placement
(destroyer at (0,0) horizontal on a fresh board) raises `TypeError` inside
`is_space_available` before any cell is written, so the ship mapping never
gains an entry through `add_ship`.  Moreover the footprint computation
itself cannot enforce "fully inside the grid": `get_ship_arr` for a
carrier (length 5) at (6,0) horizontal CLIPS at the edge and yields only 4
cells (second conjunct), so an off-grid footprint would be accepted, not
rejected, were the validation reachable. -/
theorem C6_no_placement_ever_succeeds :
    PlayerModel.add_ship freshPlayer "destroyer" (0, 0) "x" = (freshPlayer, .error .typeError)
    ∧ PlayerModel.get_ship_arr freshPlayer 5 (6, 0) "x" = .ok (some [0, 0, 0, 0]) := by
  decide

/-- C7: with fewer than all five catalog ships placed, `register_hit`
returns the `not_all_ships_added` rejection and leaves the state exactly
unchanged; with all five placed but the board already fully sunk, it
returns the `all_ships_already_sunk` rejection, again leaving the state
exactly unchanged.  Confirmed: both rejections fire before any write. -/
theorem C7_register_hit_precondition_rejections (p : PlayerModel) (coords : Nat × Nat) :
    (p.check_all_ships_added = false →
      PlayerModel.register_hit p coords = (p, .ok (false, none, some "not_all_ships_added")))
    ∧ (p.check_all_ships_added = true → p.sunk_all = true →
      PlayerModel.register_hit p coords = (p, .ok (false, none, some "all_ships_already_sunk"))) := by
  constructor
  · intro h
    simp [PlayerModel.register_hit, h]
  · intro h1 h2
    simp [PlayerModel.register_hit, h1, h2]

/-- Witness for C7 at concrete boards: a fresh board with no ships placed,
and a fully placed board whose `sunk_all` flag is raised. -/
theorem C7_witness :
    PlayerModel.register_hit freshPlayer (0, 0)
        = (freshPlayer, .ok (false, none, some "not_all_ships_added"))
    ∧ PlayerModel.register_hit pFullSunk (0, 0)
        = (pFullSunk, .ok (false, none, some "all_ships_already_sunk")) :=
  ⟨(C7_register_hit_precondition_rejections freshPlayer (0, 0)).1 (by decide),
   (C7_register_hit_precondition_rejections pFullSunk (0, 0)).2 (by decide) (by decide)⟩

/-- C8: the claim states that both player lookups report absence as a
normal outcome and never raise.  Refuted for `get_player`: an unknown
identifier raises `KeyError` (a bare dict subscript), even though the
route handler that calls it checks the result against `None`.  The session
lookup behaves as claimed (first two conjuncts): an unknown or missing
token yields `None`. -/
theorem C8_get_player_raises_keyerror :
    GameModel.get_player_by_session_id gOnePlayer (some "unknown-token") = none
    ∧ GameModel.get_player_by_session_id gOnePlayer none = none
    ∧ GameModel.get_player gOnePlayer "unknown-id" = .error .keyError := by
  decide

/-- C9: the claim states that each successful attack appends the attempted
coordinate to the board's attack log.  Refuted: after the (successful,
empty-cell) attack at (5,0) on `pFull` the log holds the single entry
`True` — the just-written `moves_map` VALUE — not the coordinate pair
(5,0).  The log is indeed exported (third conjunct shows a non-owner
export carrying it). -/
theorem C9_moves_log_records_true_not_coords :
    ((PlayerModel.register_hit pFull (5, 0)).1).moves_index = [LogEntry.flag true]
    ∧ LogEntry.flag true ≠ LogEntry.coord 5 0
    ∧ (PlayerModel.export ((PlayerModel.register_hit pFull (5, 0)).1) none).map
        BoardExport.moves_index = .ok [LogEntry.flag true] := by
  decide

/-- C3: for every ship built by the constructor and every sequence of
`add_hit` calls, after each call the hit count is at most the length and
never decreased, the sunk flag equals `hits == length`, and once sunk a
further call is a no-op.  Confirmed. -/
theorem C3_ship_hit_invariants (id_ : String) (len code n : Nat) :
    (ShipModel.add_hit^[n + 1] (ShipModel.init id_ len code)).hits ≤ len
    ∧ (ShipModel.add_hit^[n] (ShipModel.init id_ len code)).hits
        ≤ (ShipModel.add_hit^[n + 1] (ShipModel.init id_ len code)).hits
    ∧ ((ShipModel.add_hit^[n + 1] (ShipModel.init id_ len code)).sunk
        = decide ((ShipModel.add_hit^[n + 1] (ShipModel.init id_ len code)).hits = len))
    ∧ ((ShipModel.add_hit^[n + 1] (ShipModel.init id_ len code)).sunk = true →
        ShipModel.add_hit (ShipModel.add_hit^[n + 1] (ShipModel.init id_ len code))
          = ShipModel.add_hit^[n + 1] (ShipModel.init id_ len code)) := by
  have hinv : ShipInv (ShipModel.add_hit^[n] (ShipModel.init id_ len code)) :=
    shipInv_iter _ n (shipInv_init id_ len code)
  have hlen : (ShipModel.add_hit^[n] (ShipModel.init id_ len code)).length = len :=
    iter_add_hit_length _ n
  have hstep : ShipModel.add_hit^[n + 1] (ShipModel.init id_ len code)
      = ShipModel.add_hit (ShipModel.add_hit^[n] (ShipModel.init id_ len code)) :=
    Function.iterate_succ_apply' _ n _
  refine ⟨?_, ?_, ?_, ?_⟩
  · rw [hstep]
    have hle := add_hit_hits_le _ hinv
    rwa [hlen] at hle
  · rw [hstep]
    exact add_hit_hits_mono _
  · rw [hstep]
    have hse := add_hit_sunk_eq _ hinv
    rwa [hlen] at hse
  · intro hs
    rw [hstep] at hs ⊢
    exact add_hit_of_sunk _ (shipInv_add_hit _ hinv) hs

/-- Witness for C3 at a concrete ship: a destroyer (length 2) after two
hits is sunk, and a further `add_hit` leaves it unchanged. -/
theorem C3_witness :
    ShipModel.add_hit (ShipModel.add_hit^[2] (ShipModel.init "destroyer" 2 5))
      = ShipModel.add_hit^[2] (ShipModel.init "destroyer" 2 5) :=
  (C3_ship_hit_invariants "destroyer" 2 5 1).2.2.2 (by decide)

/-- C10 (implicit): on a board with all five ships placed, repeating the
attack on one and the same ship-occupied cell applies `add_hit` to that
ship on every repetition — after `n` repetitions the ship stored under its
kind is exactly `add_hit^[n]` of the original — so a fresh ship is sunk by
attacking a single one of its cells `length` times, its other cells never
attacked.  Confirmed at the state level; note each such call also ends in
the `AttributeError` of `is_sunk_all` AFTER recording the hit, and the
recorded mutation persists on the Python object across the raise. -/
theorem C10_repeated_attacks_sink_ship (p : PlayerModel) (x y m : Nat) (k : String)
    (ship : ShipModel) (n : Nat)
    (hall : p.check_all_ships_added = true)
    (hflag : p.sunk_all = false)
    (hcell : grid2Get p.grid x y = .ok m)
    (hm : (m == 0) = false)
    (hk : dictGet SHIPS_INTCODES m = some k)
    (hship : dictGet p.ships k = some ship)
    (hy : y < p.grid_attempts.length)
    (hx : x < (p.grid_attempts.getD y []).length) :
    dictGet (((attackStep (x, y))^[n]) p).ships k = some (ShipModel.add_hit^[n] ship)
    ∧ (ship.hits = 0 → 0 < ship.length → n = ship.length →
        (ShipModel.add_hit^[n] ship).hits = ship.length
        ∧ (ShipModel.add_hit^[n] ship).sunk = true) := by
  constructor
  · exact (attackReady_iter p x y m k ship n
      ⟨hall, hflag, hcell, hm, hk, hship, hy, hx⟩).2.2.2.2.2.1
  · intro h0 hpos hn
    obtain ⟨j, hj⟩ : ∃ j, ship.length = j + 1 := ⟨ship.length - 1, by omega⟩
    have hjle : ship.hits + j ≤ ship.length := by omega
    have hhits := iter_add_hit_hits ship j hjle
    have hlen := iter_add_hit_length ship j
    have hstep : ShipModel.add_hit^[j + 1] ship
        = ShipModel.add_hit (ShipModel.add_hit^[j] ship) :=
      Function.iterate_succ_apply' _ j ship
    have hlast : (ShipModel.add_hit^[j] ship).hits + 1
        = (ShipModel.add_hit^[j] ship).length := by omega
    constructor
    · rw [hn, hj, hstep, add_hit_hits_of_lt _ (by omega)]
      omega
    · rw [hn, hj, hstep]
      exact add_hit_sunk_of_last _ hlast

/-- Witness for C10: on the fully placed board, attacking the destroyer's
cell (0,4) twice sinks it — its stored state is then hits 2, sunk. -/
theorem C10_witness :
    dictGet (((attackStep (0, 4))^[2]) pFull).ships "destroyer"
      = some { id := "destroyer", length := 2, intcode := 5, hits := 2, sunk := true } := by
  have h := C10_repeated_attacks_sink_ship pFull 0 4 5 "destroyer"
    (ShipModel.init "destroyer" 2 5) 2 (by decide) (by decide) (by decide) (by decide)
    (by decide) (by decide) (by decide) (by decide)
  rw [h.1]
  decide

end BS
